import Mathlib

/-
Verification development for the sumo-gym Fleet Management Problem (FMP)
environment: a shallow embedding of `src/sumo_gym/envs/fmp.py` and
`src/sumo_gym/spaces/grid.py`, followed by theorems about the embedded
definitions.

Modelling conventions:
* Python floats are modelled as rationals (ℚ).
* The helper module `sumo_gym.utils.fmp_utils` is not part of the given
  sources; its members (`Loading`, `GridAction`, the `NO_LOADING` and
  `NO_CHARGING` sentinels, `dist_between`, `one_step_to_destination`,
  `get_hot_spot_weight`, `nearest_charging_station_with_distance`) are
  modelled from the spec, either as small data definitions or as oracle
  function parameters.
* Mutation is modelled by explicit state passing; the Python `assert` in
  `FMPEnv.step` is modelled by returning `Option` (`none` = assertion
  failure).
-/

namespace SumoGym

/-- Modelled from the spec: the `NO_LOADING` sentinel of
`sumo_gym.utils.fmp_utils` (absent from src); `fmp.py` itself uses the raw
value `-1` for the same purpose. -/
def NO_LOADING : Int := -1

/-- Modelled from the spec: the `NO_CHARGING` sentinel of
`sumo_gym.utils.fmp_utils` (absent from src); `fmp.py` itself uses the raw
value `-1` for the same purpose. -/
def NO_CHARGING : Int := -1

/-- Modelled from the spec: `Loading` from `sumo_gym.utils.fmp_utils`
(absent from src): a pair (current, target) of demand indices, each either
a valid demand index or the `NO_LOADING` sentinel. -/
structure Loading where
  current : Int
  target : Int
deriving DecidableEq, Repr

/-- A vertex: 2D coordinates (`typing.py`: VertexType). -/
structure Vertex where
  x : ℚ
  y : ℚ
deriving DecidableEq, Repr

/-- A demand: departure and destination vertex indices
(`typing.py`: FMPDemandsType). -/
structure Demand where
  departure : Nat
  destination : Nat
deriving DecidableEq, Repr

instance : Inhabited Demand := ⟨⟨0, 0⟩⟩

/-- A charging station: location vertex index and charging speed
(`typing.py`: FMPChargingStationType; fields used by the code are
`.location` and `.charging_speed`). -/
structure ChargingStation where
  location : Nat
  charging_speed : ℚ
deriving DecidableEq, Repr

instance : Inhabited ChargingStation := ⟨⟨0, 0⟩⟩

/-- An electric vehicle: speed and battery capacity
(`typing.py`: FMPElectricVehiclesType; the field used by the code is
`.capacity`). -/
structure ElectricVehicle where
  speed : ℚ
  capacity : ℚ
deriving DecidableEq, Repr

instance : Inhabited ElectricVehicle := ⟨⟨0, 0⟩⟩

/-- `FMPState` from `fmp.py`: the mutable per-vehicle state; the defaults
are those of `FMPState.__init__`. -/
structure FMPState where
  location : Nat
  is_loading : Loading
  is_charging : Int
  battery : ℚ
deriving DecidableEq, Repr

instance : Inhabited FMPState := ⟨⟨0, ⟨NO_LOADING, NO_LOADING⟩, NO_CHARGING, 0⟩⟩

/-- Modelled from the spec: `GridAction` from `sumo_gym.utils.fmp_utils`
(absent from src): the per-vehicle action produced each tick, with default
field values location 0, no loading, no charging (mirroring the
`FMPState` defaults of `fmp.py`). -/
structure GridAction where
  location : Nat
  is_loading : Loading
  is_charging : Int
deriving DecidableEq, Repr

instance : Inhabited GridAction := ⟨⟨0, ⟨NO_LOADING, NO_LOADING⟩, NO_CHARGING⟩⟩

/-- An edge: ordered pair of vertex indices (`typing.py`: EdgeType). -/
def Edge : Type := Nat × Nat

instance : DecidableEq Edge := instDecidableEqProd

/-- `FMP.__init__`'s keyword arguments when building from explicit arrays
(`fmp.py` lines 17-32): counts plus optional arrays (Python `None`
defaults are modelled by `Option`). -/
structure FMP where
  n_vertex : Nat
  n_edge : Nat
  n_vehicle : Nat
  n_electric_vehicles : Nat
  n_charging_station : Nat
  vertices : Option (List Vertex)
  demand : Option (List Demand)
  edges : Option (List Edge)
  electric_vehicles : Option (List ElectricVehicle)
  departures : Option (List Nat)
  charging_stations : Option (List ChargingStation)
deriving DecidableEq

/-- `FMP._is_valid` (`fmp.py` lines 74-104): zero/None checks, duplicate
checks on vertices, edges, electric vehicles and charging stations, and
disjointness of demand endpoints from charging-station locations. -/
def FMP.is_valid (f : FMP) : Bool :=
  match f.vertices, f.charging_stations, f.electric_vehicles, f.demand,
      f.edges, f.departures with
  | some vs, some css, some evs, some dm, some es, some _ =>
    if f.n_vertex = 0 ∨ f.n_edge = 0 ∨ f.n_vehicle = 0 ∨
        f.n_charging_station = 0 then false
    else if ¬ vs.Nodup then false
    else if ¬ es.Nodup then false
    else if ¬ evs.Nodup then false
    else if ¬ css.Nodup then false
    else
      dm.all (fun d =>
        decide (¬ (d.departure ∈ css.map ChargingStation.location ∨
          d.destination ∈ css.map ChargingStation.location)))
  | _, _, _, _, _, _ => false

/-- `FMP.__init__` from explicit arrays (`fmp.py` lines 46-65): raises
`ValueError` exactly when `_is_valid` fails, otherwise returns the built
instance. -/
def FMP.init (f : FMP) : Except String FMP :=
  if f.is_valid then Except.ok f else Except.error "FMP setting is not valid"

/-- The validated problem data as the environment uses it (all arrays
present). -/
structure FMPData where
  n_vertex : Nat
  n_edge : Nat
  n_vehicle : Nat
  n_electric_vehicles : Nat
  n_charging_station : Nat
  vertices : List Vertex
  demand : List Demand
  edges : List Edge
  electric_vehicles : List ElectricVehicle
  departures : List Nat
  charging_stations : List ChargingStation

/-- The mutable environment state owned by `FMPEnv`: per-vehicle states,
the responded-demand set, and the reward vector. -/
structure EnvState where
  states : List FMPState
  responded : Finset Int
  rewards : List ℚ
deriving DecidableEq

/-- `FMPEnv._reset` (`fmp.py` lines 149-168): fresh default states with
location set from `departures` and battery from each vehicle's capacity;
empty responded set; zero rewards of length `n_vehicle`. -/
def FMPEnv.reset (f : FMPData) : EnvState :=
  { states := (List.range f.n_electric_vehicles).map (fun i =>
      { location := f.departures.getD i 0
        is_loading := ⟨NO_LOADING, NO_LOADING⟩
        is_charging := NO_CHARGING
        battery := (f.electric_vehicles.getD i default).capacity })
    responded := ∅
    rewards := List.replicate f.n_vehicle 0 }

/-- The loop body of `FMPEnv.step` for vehicle `i` (`fmp.py` lines
171-211).  `dist` models `sumo_gym.utils.fmp_utils.dist_between` and
`hot` models `get_hot_spot_weight` (both absent from src).  The Python
`assert self.states[i].battery >= 0` is modelled by returning `none`. -/
def FMPEnv.stepVehicle (f : FMPData) (dist : Nat → Nat → ℚ) (hot : Nat → ℚ)
    (i : Nat) (acc : EnvState) (a : GridAction) : Option EnvState :=
  let s := acc.states.getD i default
  let prev_location := s.location
  let prev_is_loading := s.is_loading.current
  let prev_battery := s.battery
  let s1 : FMPState :=
    { location := a.location
      is_loading := ⟨a.is_loading.current, a.is_loading.target⟩
      is_charging := a.is_charging
      battery := s.battery - dist a.location prev_location }
  if s1.battery < 0 then none
  else
    let s2 : FMPState :=
      if s1.is_charging ≠ NO_CHARGING then
        { s1 with battery := s1.battery +
            (f.charging_stations.getD s1.is_charging.toNat default).charging_speed }
      else s1
    let r1 := acc.rewards.getD i 0 + min (s2.battery - prev_battery) 0
    if prev_is_loading ≠ NO_LOADING ∧ s2.is_loading.current = NO_LOADING then
      let d := f.demand.getD prev_is_loading.toNat default
      some { states := acc.states.set i s2
             responded := insert prev_is_loading acc.responded
             rewards := acc.rewards.set i
               (r1 + hot d.departure * dist d.departure d.destination) }
    else
      some { states := acc.states.set i s2
             responded := acc.responded
             rewards := acc.rewards.set i r1 }

/-- The full demand index set `set(range(len(self.fmp.demand)))` used for
the `done` test (`fmp.py` line 223), as a set of Python ints. -/
def fullDemandSet (f : FMPData) : Finset Int :=
  (Finset.range f.demand.length).image Int.ofNat

/-- `FMPEnv.step` (`fmp.py` lines 170-226): the per-vehicle loop over
`range(n_vehicle)` followed by the `done` computation; returns `none` when
the battery assertion fails for some vehicle. -/
def FMPEnv.step (f : FMPData) (dist : Nat → Nat → ℚ) (hot : Nat → ℚ)
    (st : EnvState) (actions : List GridAction) : Option (EnvState × Bool) :=
  match (List.range f.n_vehicle).foldlM
      (fun acc i => FMPEnv.stepVehicle f dist hot i acc (actions.getD i default))
      st with
  | none => none
  | some out => some (out, decide (out.responded = fullDemandSet f))

/-- The read-only data `GridSpace` is constructed with (`grid.py` lines
18-38): the problem arrays plus the shared responded set. -/
structure GridData where
  vertices : List Vertex
  demand : List Demand
  responded : Finset Int
  edges : List Edge
  electric_vehicles : List ElectricVehicle
  charging_stations : List ChargingStation

/-- The bounding-box diagonal length `diagonal_len` computed in the
available branch of `GridSpace.sample` (`grid.py` lines 102-107):
`2 * (max y - min y + max x - min x)`. -/
def diagonalLen (vs : List Vertex) : ℚ :=
  2 * (((vs.map Vertex.y).max?.getD 0 - (vs.map Vertex.y).min?.getD 0) +
    ((vs.map Vertex.x).max?.getD 0 - (vs.map Vertex.x).min?.getD 0))

/-- `possibility_of_togo_charge` from the available branch of
`GridSpace.sample` (`grid.py` lines 108-112):
`battery / (diagonal_len - capacity) + capacity / (capacity - diagonal_len)`. -/
def possibility_of_togo_charge (battery capacity diagonal : ℚ) : ℚ :=
  battery / (diagonal - capacity) + capacity / (capacity - diagonal)

/-- The external collaborators `GridSpace.sample` calls, determinized as
oracle functions: `oneStep loc dest` models
`one_step_to_destination(vertices, edges, loc, dest)`, `nearestCS loc`
models the station index returned by
`nearest_charging_station_with_distance(...)` (both from
`sumo_gym.utils.fmp_utils`, absent from src), `rnd i` models the
`np.random.random()` draw made for vehicle `i`, and `choice i l` models
`random.choices(l)[0]` for vehicle `i`. -/
structure Oracles where
  oneStep : Nat → Nat → Nat
  nearestCS : Nat → Nat
  rnd : Nat → ℚ
  choice : Nat → List Nat → Nat

/-- The demand indices still selectable this tick: `available_dmd` from
the available branch of `GridSpace.sample` (`grid.py` lines 134-138). -/
def availableDmd (G : GridData) (responding : Finset Int) : List Nat :=
  (List.range G.demand.length).filter
    (fun d : Nat => decide (¬ (Int.ofNat d ∈ G.responded) ∧
      ¬ (Int.ofNat d ∈ responding)))

/-- The branch body of one iteration of the per-vehicle loop of
`GridSpace.sample` (`grid.py` lines 52-156) for vehicle `i`: yields the
action written into `samples[i]`, the (possibly mutated) states list, and
the updated `responding` set.  Note the delivering branch assigns
`self.states[i].location = loc` (`grid.py` line 61), mutating the vehicle
state. -/
def sampleBranch (G : GridData) (O : Oracles) (i : Nat)
    (states : List FMPState) (responding : Finset Int) :
    GridAction × List FMPState × Finset Int :=
  let s := states.getD i default
  if s.is_loading.current ≠ NO_LOADING then
    -- is on the way (delivering)
    let dest := (G.demand.getD s.is_loading.current.toNat default).destination
    let loc := O.oneStep s.location dest
    let states1 := states.set i { s with location := loc }
    if loc = dest then
      ({ (default : GridAction) with
        is_loading := ⟨NO_LOADING, NO_LOADING⟩ }, states1, responding)
    else
      ({ (default : GridAction) with
        is_loading := ⟨s.is_loading.current, s.is_loading.target⟩
        location := loc }, states1, responding)
  else if s.is_loading.target ≠ NO_LOADING then
    -- is to the way (en route to pick up)
    let dep := (G.demand.getD s.is_loading.target.toNat default).departure
    let loc := O.oneStep s.location dep
    if loc = dep then
      ({ (default : GridAction) with
        location := loc
        is_loading := ⟨s.is_loading.target, s.is_loading.target⟩ },
       states, responding)
    else
      ({ (default : GridAction) with
        location := loc
        is_loading := ⟨s.is_loading.current, s.is_loading.target⟩ },
       states, responding)
  else if s.is_charging ≠ NO_CHARGING then
    -- is charging
    let cs := G.charging_stations.getD s.is_charging.toNat default
    if (G.electric_vehicles.getD i default).capacity - s.battery >
        cs.charging_speed then
      ({ (default : GridAction) with
        location := cs.location
        is_charging := s.is_charging }, states, responding)
    else
      ({ (default : GridAction) with
        location := cs.location }, states, responding)
  else
    -- available
    let p := possibility_of_togo_charge s.battery
      (G.electric_vehicles.getD i default).capacity (diagonalLen G.vertices)
    if O.rnd i < p then
      let ncs := O.nearestCS s.location
      let csLoc := (G.charging_stations.getD ncs default).location
      let loc := O.oneStep s.location csLoc
      if loc = csLoc then
        ({ (default : GridAction) with
          location := loc
          is_charging := (ncs : Int) }, states, responding)
      else
        ({ (default : GridAction) with
          location := loc }, states, responding)
    else
      if (availableDmd G responding).length ≠ 0 then
        let dmd_idx := O.choice i (availableDmd G responding)
        let dep := (G.demand.getD dmd_idx default).departure
        let loc := O.oneStep s.location dep
        if loc = dep then
          ({ (default : GridAction) with
            location := loc
            is_loading := ⟨(dmd_idx : Int), (dmd_idx : Int)⟩ },
           states, insert (dmd_idx : Int) responding)
        else
          ({ (default : GridAction) with
            location := loc
            is_loading := ⟨NO_LOADING, (dmd_idx : Int)⟩ },
           states, insert (dmd_idx : Int) responding)
      else
        ({ (default : GridAction) with
          location := s.location }, states, responding)

/-- One iteration of the per-vehicle loop of `GridSpace.sample`: run the
branch body for vehicle `i` and store the resulting action at
`samples[i]`. -/
def sampleOne (G : GridData) (O : Oracles) (i : Nat)
    (acc : List GridAction × List FMPState × Finset Int) :
    List GridAction × List FMPState × Finset Int :=
  let dec := sampleBranch G O i acc.2.1 acc.2.2
  (acc.1.set i dec.1, dec.2.1, dec.2.2)

/-- The first loop of `GridSpace.sample` (`grid.py` lines 45-50): the
per-tick `responding` set built by scanning every vehicle's loading
state. -/
def initResponding (states : List FMPState) : Finset Int :=
  (List.range states.length).foldl
    (fun r i =>
      let s := states.getD i default
      if s.is_loading.current ≠ NO_LOADING then insert s.is_loading.current r
      else if s.is_loading.target ≠ NO_LOADING then insert s.is_loading.target r
      else r) ∅

/-- `GridSpace.sample` (`grid.py` lines 40-159): builds `responding`, then
runs the per-vehicle decision loop.  It returns the samples list together
with the final vehicle-states list (mutated by the delivering branch) and
the final `responding` set. -/
def GridSpace.sample (G : GridData) (O : Oracles) (states : List FMPState) :
    List GridAction × List FMPState × Finset Int :=
  (List.range states.length).foldl (fun acc i => sampleOne G O i acc)
    (List.replicate states.length default, states, initResponding states)

/-- The state of `GridSpace.sample`'s main loop after the first `k`
vehicles have been processed. -/
def sampleAcc (G : GridData) (O : Oracles) (states : List FMPState)
    (k : Nat) : List GridAction × List FMPState × Finset Int :=
  (List.range k).foldl (fun acc i => sampleOne G O i acc)
    (List.replicate states.length default, states, initResponding states)

/-- A vehicle state in the "available" phase of the decision policy: no
demand carried, no pickup target, not charging (`grid.py` line 101). -/
def isAvailable (s : FMPState) : Prop :=
  s.is_loading.current = NO_LOADING ∧ s.is_loading.target = NO_LOADING ∧
    s.is_charging = NO_CHARGING

instance (s : FMPState) : Decidable (isAvailable s) := by
  unfold isAvailable; infer_instance

/- Concrete instances used by the witness and counterexample theorems. -/

/-- A concrete problem instance: three vertices, one demand 0 → 2, one
vehicle of capacity 10 starting at vertex 0, one charging station at
vertex 1. -/
def exF : FMPData :=
  { n_vertex := 3, n_edge := 2, n_vehicle := 1, n_electric_vehicles := 1
    n_charging_station := 1
    vertices := [⟨0, 0⟩, ⟨1, 1⟩, ⟨2, 0⟩]
    demand := [⟨0, 2⟩]
    edges := [(0, 1), (1, 2)]
    electric_vehicles := [⟨1, 10⟩]
    departures := [0]
    charging_stations := [⟨1, 1⟩] }

/-- The policy-side view of `exF` with an empty responded set. -/
def exG : GridData :=
  { vertices := exF.vertices
    demand := exF.demand
    responded := ∅
    edges := exF.edges
    electric_vehicles := exF.electric_vehicles
    charging_stations := exF.charging_stations }

/-- A two-demand variant of `exG` with two vehicles. -/
def exG2 : GridData :=
  { vertices := exF.vertices
    demand := [⟨0, 2⟩, ⟨2, 0⟩]
    responded := ∅
    edges := exF.edges
    electric_vehicles := [⟨1, 10⟩, ⟨1, 10⟩]
    charging_stations := exF.charging_stations }

/-- Concrete oracles: `one_step_to_destination` jumps straight to the
destination, the random draw is 2 (so a go-charge probability below 2
routes to the demand branch), and `random.choices` picks the head. -/
def exO : Oracles :=
  { oneStep := fun _ d => d
    nearestCS := fun _ => 0
    rnd := fun _ => 2
    choice := fun _ l => l.getD 0 0 }

/-- Concrete oracles whose `one_step_to_destination` always moves to
vertex 1 (never reaching demand destination 2). -/
def exOmid : Oracles :=
  { oneStep := fun _ _ => 1
    nearestCS := fun _ => 0
    rnd := fun _ => 2
    choice := fun _ l => l.getD 0 0 }

/-- A single delivering vehicle: carrying demand 0, at vertex 0, battery
5. -/
def exDeliver : List FMPState := [⟨0, ⟨0, 0⟩, -1, 5⟩]

/-- Two available vehicles at vertex 0 with battery 5. -/
def exAvail2 : List FMPState :=
  [⟨0, ⟨-1, -1⟩, -1, 5⟩, ⟨0, ⟨-1, -1⟩, -1, 5⟩]

/-- An `FMP` argument pack that is fully populated except that the
electric-vehicle count is zero. -/
def exFMP0 : FMP :=
  { n_vertex := 3, n_edge := 2, n_vehicle := 1, n_electric_vehicles := 0
    n_charging_station := 1
    vertices := some [⟨0, 0⟩, ⟨1, 1⟩, ⟨2, 0⟩]
    demand := some [⟨0, 2⟩]
    edges := some [(0, 1), (1, 2)]
    electric_vehicles := some [⟨1, 10⟩]
    departures := some [0]
    charging_stations := some [⟨1, 1⟩] }

/- List access helper lemmas. -/

theorem getD_set_self {α : Type} (l : List α) (i : Nat) (a d : α)
    (h : i < l.length) : (l.set i a).getD i d = a := by
  rw [List.getD_eq_getD_get?, List.get?_eq_getElem?,
    List.getElem?_set_eq_of_lt a h]
  rfl

theorem getD_set_ne {α : Type} (l : List α) {i j : Nat} (a d : α)
    (h : i ≠ j) : (l.set i a).getD j d = l.getD j d := by
  rw [List.getD_eq_getD_get?, List.getD_eq_getD_get?, List.get?_eq_getElem?,
    List.get?_eq_getElem?, List.getElem?_set_ne h]

theorem getD_map_range {α : Type} (n i : Nat) (fn : Nat → α) (d : α)
    (h : i < n) : ((List.range n).map fn).getD i d = fn i := by
  have hlen : i < ((List.range n).map fn).length := by simp [h]
  rw [List.getD_eq_getElem _ _ hlen]
  simp

/- Claim C8: the go-charge pseudo-probability. -/

/-- Claim C8 (counterexample): with capacity 10 and bounding-box diagonal
20 (diagonal larger than capacity), the go-charge pseudo-probability is
larger at battery 5 than at battery 0, so it does not increase as the
battery decreases. -/
theorem grid_possibility_not_antitone_cex :
    possibility_of_togo_charge 0 10 20 < possibility_of_togo_charge 5 10 20 := by
  norm_num [possibility_of_togo_charge]

/-- Claim C8 (amended): the go-charge pseudo-probability computed in the
available branch of `GridSpace.sample` is a function of the vehicle's
battery, its capacity and the bounding-box diagonal, and for fixed
capacity and diagonal it strictly increases as the battery decreases
provided the diagonal is smaller than the capacity (for diagonal larger
than capacity the dependence is reversed). -/
theorem grid_possibility_antitone (b1 b2 cap diag : ℚ) (hd : diag < cap)
    (hb : b1 < b2) :
    possibility_of_togo_charge b2 cap diag <
      possibility_of_togo_charge b1 cap diag := by
  have hD : diag - cap < 0 := by linarith
  have key : possibility_of_togo_charge b2 cap diag -
      possibility_of_togo_charge b1 cap diag = (b2 - b1) / (diag - cap) := by
    unfold possibility_of_togo_charge
    have hne : diag - cap ≠ 0 := ne_of_lt hD
    field_simp
  have hneg : (b2 - b1) / (diag - cap) < 0 :=
    div_neg_of_pos_of_neg (sub_pos.mpr hb) hD
  linarith

/-- Claim C8 witness: the amended monotonicity at battery 0 vs 1,
capacity 2, diagonal 1. -/
theorem grid_possibility_antitone_witness :
    possibility_of_togo_charge 1 2 1 < possibility_of_togo_charge 0 2 1 :=
  grid_possibility_antitone 0 1 2 1 (by norm_num) (by norm_num)

/- Claim C9: reset. -/

/-- Claim C9: immediately after `FMPEnv.reset`, each electric vehicle is
at its configured departure vertex with battery equal to its capacity, no
active loading or charging; the responded set is empty and the rewards
vector is all zeros. -/
theorem fmp_reset_spec (f : FMPData) (i : Nat)
    (hi : i < f.n_electric_vehicles) :
    ((FMPEnv.reset f).states.getD i default).location = f.departures.getD i 0 ∧
    ((FMPEnv.reset f).states.getD i default).battery =
      (f.electric_vehicles.getD i default).capacity ∧
    ((FMPEnv.reset f).states.getD i default).is_loading =
      ⟨NO_LOADING, NO_LOADING⟩ ∧
    ((FMPEnv.reset f).states.getD i default).is_charging = NO_CHARGING ∧
    (FMPEnv.reset f).responded = ∅ ∧
    (FMPEnv.reset f).rewards = List.replicate f.n_vehicle 0 := by
  have h : (FMPEnv.reset f).states.getD i default =
      { location := f.departures.getD i 0
        is_loading := ⟨NO_LOADING, NO_LOADING⟩
        is_charging := NO_CHARGING
        battery := (f.electric_vehicles.getD i default).capacity } := by
    unfold FMPEnv.reset
    exact getD_map_range f.n_electric_vehicles i _ default hi
  refine ⟨by rw [h], by rw [h], by rw [h], by rw [h], rfl, rfl⟩

/-- Claim C9 witness: reset of the concrete instance `exF`, vehicle 0. -/
theorem fmp_reset_spec_witness :
    ((FMPEnv.reset exF).states.getD 0 default).location =
      exF.departures.getD 0 0 ∧
    ((FMPEnv.reset exF).states.getD 0 default).battery =
      (exF.electric_vehicles.getD 0 default).capacity ∧
    ((FMPEnv.reset exF).states.getD 0 default).is_loading =
      ⟨NO_LOADING, NO_LOADING⟩ ∧
    ((FMPEnv.reset exF).states.getD 0 default).is_charging = NO_CHARGING ∧
    (FMPEnv.reset exF).responded = ∅ ∧
    (FMPEnv.reset exF).rewards = List.replicate exF.n_vehicle 0 :=
  fmp_reset_spec exF 0 (by decide)

/- Claim C2: the done flag. -/

theorem fullDemandSet_card (f : FMPData) :
    (fullDemandSet f).card = f.demand.length := by
  unfold fullDemandSet
  rw [Finset.card_image_of_injective _ (fun a b h => Int.ofNat.inj h)]
  exact Finset.card_range _

/-- Claim C2: the `done` flag returned by `FMPEnv.step` is true iff the
responded set equals the full demand index set; when the responded set
only holds demand indices, this is equivalent to its size equalling the
demand count. -/
theorem fmp_step_done_iff (f : FMPData) (dist : Nat → Nat → ℚ)
    (hot : Nat → ℚ) (st : EnvState) (actions : List GridAction)
    (out : EnvState) (dn : Bool)
    (h : FMPEnv.step f dist hot st actions = some (out, dn)) :
    (dn = true ↔ out.responded = fullDemandSet f) ∧
    (out.responded ⊆ fullDemandSet f →
      (dn = true ↔ out.responded.card = f.demand.length)) := by
  unfold FMPEnv.step at h
  rcases hfold : (List.range f.n_vehicle).foldlM
      (fun acc i => FMPEnv.stepVehicle f dist hot i acc (actions.getD i default))
      st with _ | o
  · rw [hfold] at h; exact absurd h (by simp)
  · rw [hfold] at h
    simp only [Option.some.injEq, Prod.mk.injEq] at h
    obtain ⟨ho, hdn⟩ := h
    subst ho
    constructor
    · rw [← hdn]; simp
    · intro hsub
      rw [← hdn]
      simp only [decide_eq_true_eq]
      constructor
      · intro he; rw [he]; exact fullDemandSet_card f
      · intro hc
        exact Finset.eq_of_subset_of_card_le hsub
          (by rw [fullDemandSet_card f, hc])

/-- A concrete evaluation of the step loop body: the single vehicle of
`exF`, carrying demand 0 at vertex 1 with battery 5, applies an action
that completes the delivery (travel cost 1, hot-spot weight 2). -/
theorem exStepVehicle_eq :
    FMPEnv.stepVehicle exF (fun _ _ => 1) (fun _ => 2) 0
      ⟨[⟨1, ⟨0, 0⟩, -1, 5⟩], ∅, [0]⟩ ⟨1, ⟨-1, -1⟩, -1⟩ =
      some ⟨[⟨1, ⟨-1, -1⟩, -1, 4⟩], {0}, [1]⟩ := by
  simp only [FMPEnv.stepVehicle]
  norm_num [exF, NO_LOADING, NO_CHARGING]

/-- The concrete full step corresponding to `exStepVehicle_eq`: the
responded set becomes {0} and `done` is true. -/
theorem exStep_eq :
    FMPEnv.step exF (fun _ _ => 1) (fun _ => 2)
      ⟨[⟨1, ⟨0, 0⟩, -1, 5⟩], ∅, [0]⟩ [⟨1, ⟨-1, -1⟩, -1⟩] =
      some (⟨[⟨1, ⟨-1, -1⟩, -1, 4⟩], {0}, [1]⟩, true) := by
  unfold FMPEnv.step
  have h1 : List.range exF.n_vehicle = [0] := rfl
  rw [h1, List.foldlM_cons]
  have h2 : ([⟨1, ⟨-1, -1⟩, -1⟩] : List GridAction).getD 0 default =
      ⟨1, ⟨-1, -1⟩, -1⟩ := rfl
  rw [h2, exStepVehicle_eq]
  show (match (some ⟨[⟨1, ⟨-1, -1⟩, -1, 4⟩], {0}, [1]⟩ : Option EnvState) with
    | none => none
    | some out => some (out, decide (out.responded = fullDemandSet exF))) = _
  simp only []
  norm_num
  decide

/-- Claim C2 witness: a concrete step in which the single demand is
delivered, making `done` true with responded set of size 1. -/
theorem fmp_step_done_iff_witness :
    ((true = true ↔
        (EnvState.responded ⟨[⟨1, ⟨-1, -1⟩, -1, 4⟩], {0}, [1]⟩) =
          fullDemandSet exF) ∧
      ((EnvState.responded ⟨[⟨1, ⟨-1, -1⟩, -1, 4⟩], {0}, [1]⟩) ⊆
          fullDemandSet exF →
        (true = true ↔
          (EnvState.responded ⟨[⟨1, ⟨-1, -1⟩, -1, 4⟩], {0}, [1]⟩).card =
            exF.demand.length))) :=
  fmp_step_done_iff exF (fun _ _ => 1) (fun _ => 2)
    ⟨[⟨1, ⟨0, 0⟩, -1, 5⟩], ∅, [0]⟩ [⟨1, ⟨-1, -1⟩, -1⟩]
    ⟨[⟨1, ⟨-1, -1⟩, -1, 4⟩], {0}, [1]⟩ true exStep_eq

/- Claim C6: construction validation. -/

theorem fmp_is_valid_iff (f : FMP) :
    f.is_valid = true ↔
    ∃ vs css evs dm es deps,
      f.vertices = some vs ∧ f.charging_stations = some css ∧
      f.electric_vehicles = some evs ∧ f.demand = some dm ∧
      f.edges = some es ∧ f.departures = some deps ∧
      f.n_vertex ≠ 0 ∧ f.n_edge ≠ 0 ∧ f.n_vehicle ≠ 0 ∧
      f.n_charging_station ≠ 0 ∧ vs.Nodup ∧ es.Nodup ∧ evs.Nodup ∧
      css.Nodup ∧
      ∀ d ∈ dm, d.departure ∉ css.map ChargingStation.location ∧
        d.destination ∉ css.map ChargingStation.location := by
  obtain ⟨nv, ne, nveh, nev, ncs, vtx, dm, ed, ev, dep, css⟩ := f
  cases vtx <;> cases css <;> cases ev <;> cases dm <;> cases ed <;>
    cases dep <;> simp [FMP.is_valid, exists_eq_left']
  case some.some.some.some.some.some vs css evs dm es deps =>
    tauto

/-- Claim C6 (counterexample): an argument pack whose electric-vehicle
count is zero but which the constructor accepts, so a zero electric
vehicle count does not raise a validation error. -/
theorem fmp_init_zero_ev_cex :
    exFMP0.n_electric_vehicles = 0 ∧ exFMP0.init = Except.ok exFMP0 :=
  ⟨rfl, by unfold FMP.init; rw [if_pos]; decide⟩

/-- Claim C6 (amended): construction from explicit arrays succeeds exactly
when every array field is present, the vertex, edge, vehicle and
charging-station counts are nonzero (the electric-vehicle count is NOT
checked), the vertices, edges, electric vehicles and charging stations
are free of duplicates, and no demand endpoint coincides with a
charging-station location; otherwise it raises the validation error. -/
theorem fmp_init_ok_iff (f : FMP) :
    f.init = Except.ok f ↔
    ∃ vs css evs dm es deps,
      f.vertices = some vs ∧ f.charging_stations = some css ∧
      f.electric_vehicles = some evs ∧ f.demand = some dm ∧
      f.edges = some es ∧ f.departures = some deps ∧
      f.n_vertex ≠ 0 ∧ f.n_edge ≠ 0 ∧ f.n_vehicle ≠ 0 ∧
      f.n_charging_station ≠ 0 ∧ vs.Nodup ∧ es.Nodup ∧ evs.Nodup ∧
      css.Nodup ∧
      ∀ d ∈ dm, d.departure ∉ css.map ChargingStation.location ∧
        d.destination ∉ css.map ChargingStation.location := by
  rw [← fmp_is_valid_iff]
  cases hv : f.is_valid <;> simp [FMP.init, hv]

/- Claim C1: the battery assertion. -/

/-- Claim C1: in the per-vehicle body of `FMPEnv.step`, after the action
location is applied and the battery decremented by the travel distance
from the previous location, the battery is nonnegative whenever the body
returns; if the decrement drives the battery negative, the body (and
hence `FMPEnv.step`, shown for the first vehicle) signals the fatal
assertion by returning `none`. -/
theorem fmp_step_battery_invariant (f : FMPData) (dist : Nat → Nat → ℚ)
    (hot : Nat → ℚ) (i : Nat) (acc : EnvState) (a : GridAction) :
    (∀ out, FMPEnv.stepVehicle f dist hot i acc a = some out →
      0 ≤ (acc.states.getD i default).battery -
        dist a.location (acc.states.getD i default).location) ∧
    ((acc.states.getD i default).battery -
        dist a.location (acc.states.getD i default).location < 0 →
      FMPEnv.stepVehicle f dist hot i acc a = none) ∧
    (∀ st actions, f.n_vehicle ≠ 0 →
      (st.states.getD 0 default).battery -
        dist (actions.getD 0 default).location
          (st.states.getD 0 default).location < 0 →
      FMPEnv.step f dist hot st actions = none) := by
  have hnone : ∀ (st : EnvState) (b : GridAction) (j : Nat),
      (st.states.getD j default).battery -
        dist b.location (st.states.getD j default).location < 0 →
      FMPEnv.stepVehicle f dist hot j st b = none := by
    intro st b j hlt
    simp only [FMPEnv.stepVehicle]
    rw [if_pos hlt]
  refine ⟨?_, hnone acc a i, ?_⟩
  · intro out hout
    by_contra hneg
    push_neg at hneg
    rw [hnone acc a i hneg] at hout
    exact absurd hout (by simp)
  · intro st actions hn hlt
    obtain ⟨m, hm⟩ := Nat.exists_eq_succ_of_ne_zero hn
    unfold FMPEnv.step
    rw [hm, List.range_succ_eq_map, List.foldlM_cons,
      hnone st (actions.getD 0 default) 0 hlt]
    rfl

/-- Claim C1 witness: with travel cost 100 and battery 10, the assertion
fires and both the loop body and the full step return `none`. -/
theorem fmp_step_battery_invariant_witness :
    FMPEnv.stepVehicle exF (fun _ _ => 100) (fun _ => 1) 0 (FMPEnv.reset exF)
      ⟨2, ⟨-1, -1⟩, -1⟩ = none ∧
    FMPEnv.step exF (fun _ _ => 100) (fun _ => 1) (FMPEnv.reset exF)
      [⟨2, ⟨-1, -1⟩, -1⟩] = none := by
  have hr : (FMPEnv.reset exF).states.getD 0 default =
      ⟨0, ⟨-1, -1⟩, -1, 10⟩ := by decide
  have h := fmp_step_battery_invariant exF (fun _ _ => 100) (fun _ => 1) 0
    (FMPEnv.reset exF) ⟨2, ⟨-1, -1⟩, -1⟩
  refine ⟨h.2.1 ?_, h.2.2 (FMPEnv.reset exF) [⟨2, ⟨-1, -1⟩, -1⟩]
    (by decide) ?_⟩
  · rw [hr]; norm_num
  · rw [hr]; norm_num

/- Claim C7: the per-vehicle reward increment. -/

/-- Claim C7: in each `FMPEnv.step` call, the reward added for a vehicle
equals `min(battery_change, 0)` plus, exactly when the vehicle goes from
carrying a demand to not loading, the bonus
`hot_spot_weight(departure) * dist(departure, destination)`. -/
theorem fmp_step_reward_formula (f : FMPData) (dist : Nat → Nat → ℚ)
    (hot : Nat → ℚ) (i : Nat) (acc : EnvState) (a : GridAction)
    (out : EnvState) (hi : i < acc.rewards.length)
    (h : FMPEnv.stepVehicle f dist hot i acc a = some out) :
    out.rewards.getD i 0 =
      acc.rewards.getD i 0 +
        min ((acc.states.getD i default).battery -
          dist a.location (acc.states.getD i default).location +
          (if a.is_charging ≠ NO_CHARGING then
            (f.charging_stations.getD a.is_charging.toNat default).charging_speed
           else 0) -
          (acc.states.getD i default).battery) 0 +
        (if (acc.states.getD i default).is_loading.current ≠ NO_LOADING ∧
            a.is_loading.current = NO_LOADING then
          hot (f.demand.getD
            (acc.states.getD i default).is_loading.current.toNat
              default).departure *
          dist (f.demand.getD
            (acc.states.getD i default).is_loading.current.toNat
              default).departure
            (f.demand.getD
              (acc.states.getD i default).is_loading.current.toNat
                default).destination
         else 0) := by
  have hrw : ∀ (sts : List FMPState) (resp : Finset Int) (r : ℚ),
      (EnvState.mk sts resp (acc.rewards.set i r)).rewards.getD i 0 = r :=
    fun sts resp r => getD_set_self acc.rewards i r 0 hi
  simp only [FMPEnv.stepVehicle] at h
  by_cases hb : (acc.states.getD i default).battery -
      dist a.location (acc.states.getD i default).location < 0
  · rw [if_pos hb] at h
    exact absurd h (by simp)
  rw [if_neg hb] at h
  by_cases hch : a.is_charging = NO_CHARGING
  · simp only [hch, ne_eq, not_true_eq_false, ite_false, if_false] at h ⊢
    by_cases hld : ((acc.states.getD i default).is_loading.current ≠
        NO_LOADING ∧ a.is_loading.current = NO_LOADING)
    · rw [if_pos hld] at h
      obtain rfl := Option.some.inj h
      rw [hrw]
      rw [if_pos (show ¬(acc.states.getD i default).is_loading.current =
        NO_LOADING ∧ a.is_loading.current = NO_LOADING by simpa using hld)]
      try ring_nf
    · rw [if_neg hld] at h
      obtain rfl := Option.some.inj h
      rw [hrw]
      rw [if_neg (show ¬(¬(acc.states.getD i default).is_loading.current =
        NO_LOADING ∧ a.is_loading.current = NO_LOADING) by simpa using hld)]
      try ring_nf
  · simp only [hch, ne_eq, not_false_eq_true, ite_true, if_true] at h ⊢
    by_cases hld : ((acc.states.getD i default).is_loading.current ≠
        NO_LOADING ∧ a.is_loading.current = NO_LOADING)
    · rw [if_pos (by simpa using hld :
        (¬(acc.states.getD i default).is_loading.current = NO_LOADING ∧
          a.is_loading.current = NO_LOADING))] at h
      obtain rfl := Option.some.inj h
      rw [hrw]
      rw [if_pos (show ¬(acc.states.getD i default).is_loading.current =
        NO_LOADING ∧ a.is_loading.current = NO_LOADING by simpa using hld)]
      try ring_nf
    · rw [if_neg (by simpa using hld :
        ¬(¬(acc.states.getD i default).is_loading.current = NO_LOADING ∧
          a.is_loading.current = NO_LOADING))] at h
      obtain rfl := Option.some.inj h
      rw [hrw]
      rw [if_neg (show ¬(¬(acc.states.getD i default).is_loading.current =
        NO_LOADING ∧ a.is_loading.current = NO_LOADING) by simpa using hld)]
      try ring_nf
/- Structural lemmas about the policy loop. -/

theorem sampleOne_fst (G : GridData) (O : Oracles) (i : Nat)
    (acc : List GridAction × List FMPState × Finset Int) :
    (sampleOne G O i acc).1 =
      acc.1.set i (sampleBranch G O i acc.2.1 acc.2.2).1 := rfl

theorem sampleOne_states (G : GridData) (O : Oracles) (i : Nat)
    (acc : List GridAction × List FMPState × Finset Int) :
    (sampleOne G O i acc).2.1 = (sampleBranch G O i acc.2.1 acc.2.2).2.1 := rfl

theorem sampleOne_resp (G : GridData) (O : Oracles) (i : Nat)
    (acc : List GridAction × List FMPState × Finset Int) :
    (sampleOne G O i acc).2.2 = (sampleBranch G O i acc.2.1 acc.2.2).2.2 := rfl

theorem sampleBranch_resp_mono (G : GridData) (O : Oracles) (i : Nat)
    (states : List FMPState) (r : Finset Int) :
    r ⊆ (sampleBranch G O i states r).2.2 := by
  simp only [sampleBranch]
  split_ifs <;>
    first
      | exact Finset.Subset.refl _
      | exact Finset.subset_insert _ _

theorem sampleBranch_states_eq (G : GridData) (O : Oracles) (i : Nat)
    (states : List FMPState) (r : Finset Int) :
    (sampleBranch G O i states r).2.1 = states ∨
    ((states.getD i default).is_loading.current ≠ NO_LOADING ∧
      (sampleBranch G O i states r).2.1 =
        states.set i { states.getD i default with
          location := O.oneStep (states.getD i default).location
            ((G.demand.getD
              (states.getD i default).is_loading.current.toNat
              default).destination) }) := by
  simp only [sampleBranch]
  split_ifs with h1 <;>
    first
      | exact Or.inl rfl
      | exact Or.inr ⟨h1, rfl⟩

theorem sampleBranch_states_fields (G : GridData) (O : Oracles) (i : Nat)
    (states : List FMPState) (r : Finset Int) (m : Nat) :
    ((sampleBranch G O i states r).2.1.getD m default).is_loading =
      (states.getD m default).is_loading ∧
    ((sampleBranch G O i states r).2.1.getD m default).is_charging =
      (states.getD m default).is_charging ∧
    ((sampleBranch G O i states r).2.1.getD m default).battery =
      (states.getD m default).battery := by
  rcases sampleBranch_states_eq G O i states r with h | ⟨-, h⟩
  · rw [h]; exact ⟨rfl, rfl, rfl⟩
  · rw [h]
    by_cases him : i = m
    · subst him
      by_cases hlen : i < states.length
      · rw [getD_set_self _ _ _ _ hlen]
        exact ⟨rfl, rfl, rfl⟩
      · rw [List.set_eq_of_length_le (le_of_not_lt hlen)]
        exact ⟨rfl, rfl, rfl⟩
    · rw [getD_set_ne _ _ _ him]
      exact ⟨rfl, rfl, rfl⟩

theorem sampleBranch_states_of_no_deliver (G : GridData) (O : Oracles)
    (i : Nat) (states : List FMPState) (r : Finset Int)
    (h : (states.getD i default).is_loading.current = NO_LOADING) :
    (sampleBranch G O i states r).2.1 = states := by
  rcases sampleBranch_states_eq G O i states r with h1 | ⟨h2, -⟩
  · exact h1
  · exact absurd h h2

theorem sampleBranch_deliver (G : GridData) (O : Oracles) (i : Nat)
    (states : List FMPState) (r : Finset Int)
    (hcur : (states.getD i default).is_loading.current ≠ NO_LOADING) :
    (sampleBranch G O i states r).2.2 = r ∧
    (O.oneStep (states.getD i default).location
        ((G.demand.getD (states.getD i default).is_loading.current.toNat
          default).destination) =
        (G.demand.getD (states.getD i default).is_loading.current.toNat
          default).destination →
      (sampleBranch G O i states r).1 = default) ∧
    (O.oneStep (states.getD i default).location
        ((G.demand.getD (states.getD i default).is_loading.current.toNat
          default).destination) ≠
        (G.demand.getD (states.getD i default).is_loading.current.toNat
          default).destination →
      (sampleBranch G O i states r).1 =
        { location := O.oneStep (states.getD i default).location
            ((G.demand.getD (states.getD i default).is_loading.current.toNat
              default).destination)
          is_loading := ⟨(states.getD i default).is_loading.current,
            (states.getD i default).is_loading.target⟩
          is_charging := NO_CHARGING }) := by
  simp only [sampleBranch]
  rw [if_pos hcur]
  split_ifs with harr
  · exact ⟨rfl, fun _ => rfl, fun hne => absurd harr hne⟩
  · exact ⟨rfl, fun he => absurd he harr, fun _ => rfl⟩

theorem availableDmd_spec (G : GridData) (r : Finset Int) (d : Nat)
    (hd : d ∈ availableDmd G r) :
    Int.ofNat d ∉ G.responded ∧ Int.ofNat d ∉ r := by
  unfold availableDmd at hd
  obtain ⟨-, hdec⟩ := List.mem_filter.mp hd
  exact of_decide_eq_true hdec

/-- In the available phase, the policy leaves the vehicle states
unchanged and either picks no new pickup target (`target` stays the
`NO_LOADING` sentinel, `responding` unchanged) or picks a fresh demand
index: nonnegative, not responded, not in `responding`, and added to
`responding`. -/
theorem sampleBranch_avail (G : GridData) (O : Oracles) (i : Nat)
    (states : List FMPState) (r : Finset Int)
    (hava : isAvailable (states.getD i default))
    (hch : ∀ l : List Nat, l ≠ [] → O.choice i l ∈ l) :
    (sampleBranch G O i states r).2.1 = states ∧
    (((sampleBranch G O i states r).1.is_loading.target = NO_LOADING ∧
        (sampleBranch G O i states r).2.2 = r) ∨
      ∃ t : Int, 0 ≤ t ∧
        (sampleBranch G O i states r).1.is_loading.target = t ∧
        t ∉ G.responded ∧ t ∉ r ∧
        (sampleBranch G O i states r).2.2 = insert t r) := by
  obtain ⟨h1, h2, h3⟩ := hava
  simp only [sampleBranch, h1, h2, h3, ne_eq, not_true_eq_false, if_false,
    ite_false]
  split_ifs with hc7 hc8 hc9 hc10
  · exact ⟨rfl, Or.inl ⟨rfl, rfl⟩⟩
  · exact ⟨rfl, Or.inl ⟨rfl, rfl⟩⟩
  · exact ⟨rfl, Or.inl ⟨rfl, rfl⟩⟩
  · have hne : availableDmd G r ≠ [] := fun he => hc9 (by rw [he]; rfl)
    obtain ⟨hresp, hrr⟩ := availableDmd_spec G r _ (hch _ hne)
    exact ⟨rfl, Or.inr ⟨Int.ofNat (O.choice i (availableDmd G r)),
      Int.ofNat_nonneg _, rfl, hresp, hrr, rfl⟩⟩
  · have hne : availableDmd G r ≠ [] := fun he => hc9 (by rw [he]; rfl)
    obtain ⟨hresp, hrr⟩ := availableDmd_spec G r _ (hch _ hne)
    exact ⟨rfl, Or.inr ⟨Int.ofNat (O.choice i (availableDmd G r)),
      Int.ofNat_nonneg _, rfl, hresp, hrr, rfl⟩⟩

theorem getD_replicate {α : Type} (n i : Nat) (d : α) :
    (List.replicate n d).getD i d = d := by
  rcases lt_or_ge i n with h | h
  · rw [List.getD_eq_getElem _ _ (by simpa using h)]
    exact List.getElem_replicate _ _
  · exact List.getD_eq_default _ _ (by simpa using h)

theorem sampleAcc_zero (G : GridData) (O : Oracles)
    (states : List FMPState) :
    sampleAcc G O states 0 =
      (List.replicate states.length default, states,
        initResponding states) := rfl

theorem sampleAcc_succ (G : GridData) (O : Oracles)
    (states : List FMPState) (k : Nat) :
    sampleAcc G O states (k + 1) =
      sampleOne G O k (sampleAcc G O states k) := by
  unfold sampleAcc
  rw [List.range_succ, List.foldl_append]
  rfl

theorem sample_eq_sampleAcc (G : GridData) (O : Oracles)
    (states : List FMPState) :
    GridSpace.sample G O states = sampleAcc G O states states.length := rfl

theorem sampleAcc_lengths (G : GridData) (O : Oracles)
    (states : List FMPState) (k : Nat) :
    (sampleAcc G O states k).1.length = states.length ∧
    (sampleAcc G O states k).2.1.length = states.length := by
  induction k with
  | zero => simp [sampleAcc_zero]
  | succ k ih =>
    obtain ⟨ih1, ih2⟩ := ih
    rw [sampleAcc_succ]
    constructor
    · rw [sampleOne_fst, List.length_set]
      exact ih1
    · rw [sampleOne_states]
      rcases sampleBranch_states_eq G O k (sampleAcc G O states k).2.1
          (sampleAcc G O states k).2.2 with h | ⟨-, h⟩
      · rw [h]; exact ih2
      · rw [h, List.length_set]; exact ih2

theorem sampleAcc_act_untouched (G : GridData) (O : Oracles)
    (states : List FMPState) (k m : Nat) (hm : k ≤ m) :
    (sampleAcc G O states k).1.getD m default = default := by
  induction k with
  | zero => exact getD_replicate _ _ _
  | succ k ih =>
    rw [sampleAcc_succ, sampleOne_fst,
      getD_set_ne _ _ _ (by omega : k ≠ m)]
    exact ih (by omega)

theorem sampleAcc_states_untouched (G : GridData) (O : Oracles)
    (states : List FMPState) (k m : Nat) (hm : k ≤ m) :
    (sampleAcc G O states k).2.1.getD m default = states.getD m default := by
  induction k with
  | zero => rfl
  | succ k ih =>
    rw [sampleAcc_succ, sampleOne_states]
    rcases sampleBranch_states_eq G O k (sampleAcc G O states k).2.1
        (sampleAcc G O states k).2.2 with h | ⟨-, h⟩
    · rw [h]; exact ih (by omega)
    · rw [h, getD_set_ne _ _ _ (by omega : k ≠ m)]
      exact ih (by omega)

theorem sampleAcc_states_fields (G : GridData) (O : Oracles)
    (states : List FMPState) (k m : Nat) :
    ((sampleAcc G O states k).2.1.getD m default).is_loading =
      (states.getD m default).is_loading ∧
    ((sampleAcc G O states k).2.1.getD m default).is_charging =
      (states.getD m default).is_charging ∧
    ((sampleAcc G O states k).2.1.getD m default).battery =
      (states.getD m default).battery := by
  induction k with
  | zero => exact ⟨rfl, rfl, rfl⟩
  | succ k ih =>
    rw [sampleAcc_succ, sampleOne_states]
    have h := sampleBranch_states_fields G O k
      (sampleAcc G O states k).2.1 (sampleAcc G O states k).2.2 m
    exact ⟨h.1.trans ih.1, h.2.1.trans ih.2.1, h.2.2.trans ih.2.2⟩

theorem sampleAcc_location_of_no_deliver (G : GridData) (O : Oracles)
    (states : List FMPState) (k m : Nat)
    (h : (states.getD m default).is_loading.current = NO_LOADING) :
    ((sampleAcc G O states k).2.1.getD m default).location =
      (states.getD m default).location := by
  induction k with
  | zero => rfl
  | succ k ih =>
    rw [sampleAcc_succ, sampleOne_states]
    by_cases hkm : k = m
    · subst hkm
      have hcur : ((sampleAcc G O states k).2.1.getD k default).is_loading.current =
          NO_LOADING := by
        have hl := (sampleAcc_states_fields G O states k k).1
        rw [hl]; exact h
      rw [sampleBranch_states_of_no_deliver G O k _ _ hcur]
      exact ih
    · rcases sampleBranch_states_eq G O k (sampleAcc G O states k).2.1
          (sampleAcc G O states k).2.2 with he | ⟨-, he⟩
      · rw [he]; exact ih
      · rw [he, getD_set_ne _ _ _ hkm]; exact ih

theorem sampleAcc_act_stable (G : GridData) (O : Oracles)
    (states : List FMPState) (k m : Nat) (hm : m < k)
    (hml : m < states.length) :
    (sampleAcc G O states k).1.getD m default =
      (sampleBranch G O m (sampleAcc G O states m).2.1
        (sampleAcc G O states m).2.2).1 := by
  induction k with
  | zero => omega
  | succ k ih =>
    rw [sampleAcc_succ, sampleOne_fst]
    by_cases hkm : m = k
    · subst hkm
      exact getD_set_self _ _ _ _
        (by rw [(sampleAcc_lengths G O states m).1]; exact hml)
    · rw [getD_set_ne _ _ _ (by omega : k ≠ m)]
      exact ih (by omega)

/-- The per-tick coordination invariant of the policy loop: after the
first `k` vehicles have decided, every new pickup target chosen by an
available vehicle is recorded in `responding` and is not a responded
demand, and no two available vehicles hold the same new pickup target. -/
theorem sampleAcc_inv (G : GridData) (O : Oracles) (states : List FMPState)
    (hch : ∀ (i : Nat) (l : List Nat), l ≠ [] → O.choice i l ∈ l) (k : Nat) :
    (∀ m, m < k → isAvailable (states.getD m default) →
      ((sampleAcc G O states k).1.getD m default).is_loading.target ≠
        NO_LOADING →
      ((sampleAcc G O states k).1.getD m default).is_loading.target ∈
          (sampleAcc G O states k).2.2 ∧
        ((sampleAcc G O states k).1.getD m default).is_loading.target ∉
          G.responded) ∧
    (∀ m1 m2, m1 < k → m2 < k → m1 ≠ m2 →
      isAvailable (states.getD m1 default) →
      isAvailable (states.getD m2 default) →
      ((sampleAcc G O states k).1.getD m1 default).is_loading.target ≠
        NO_LOADING →
      ((sampleAcc G O states k).1.getD m2 default).is_loading.target ≠
        NO_LOADING →
      ((sampleAcc G O states k).1.getD m1 default).is_loading.target ≠
        ((sampleAcc G O states k).1.getD m2 default).is_loading.target) := by
  induction k with
  | zero =>
    exact ⟨fun m hm => absurd hm (Nat.not_lt_zero m),
      fun m1 m2 hm1 => absurd hm1 (Nat.not_lt_zero m1)⟩
  | succ k ih =>
    obtain ⟨ih1, ih2⟩ := ih
    have hactpres : ∀ m, m ≠ k →
        (sampleAcc G O states (k + 1)).1.getD m default =
        (sampleAcc G O states k).1.getD m default := by
      intro m hm
      rw [sampleAcc_succ, sampleOne_fst,
        getD_set_ne _ _ _ (fun he => hm he.symm)]
    have hrespmono : (sampleAcc G O states k).2.2 ⊆
        (sampleAcc G O states (k + 1)).2.2 := by
      rw [sampleAcc_succ, sampleOne_resp]
      exact sampleBranch_resp_mono _ _ _ _ _
    have hnew : ∀ (hav : isAvailable (states.getD k default)),
        ((sampleAcc G O states (k + 1)).1.getD k default).is_loading.target ≠
          NO_LOADING →
        ∃ t : Int,
          ((sampleAcc G O states (k + 1)).1.getD k default).is_loading.target
            = t ∧
          t ∉ G.responded ∧ t ∉ (sampleAcc G O states k).2.2 ∧
          t ∈ (sampleAcc G O states (k + 1)).2.2 := by
      intro hav ht
      by_cases hlen : k < states.length
      · have hstk := sampleAcc_states_untouched G O states k k le_rfl
        have hav2 : isAvailable
            ((sampleAcc G O states k).2.1.getD k default) := by
          rw [hstk]; exact hav
        obtain ⟨-, hcase⟩ := sampleBranch_avail G O k
          (sampleAcc G O states k).2.1 (sampleAcc G O states k).2.2
          hav2 (hch k)
        have hact : (sampleAcc G O states (k + 1)).1.getD k default =
            (sampleBranch G O k (sampleAcc G O states k).2.1
              (sampleAcc G O states k).2.2).1 := by
          rw [sampleAcc_succ, sampleOne_fst]
          exact getD_set_self _ _ _ _
            (by rw [(sampleAcc_lengths G O states k).1]; exact hlen)
        rcases hcase with ⟨h0, -⟩ | ⟨t, -, htgt, htG, htr, hresp⟩
        · rw [hact] at ht; exact absurd h0 ht
        · refine ⟨t, by rw [hact]; exact htgt, htG, htr, ?_⟩
          rw [sampleAcc_succ, sampleOne_resp, hresp]
          exact Finset.mem_insert_self _ _
      · exfalso
        have hdef : (sampleAcc G O states (k + 1)).1.getD k default =
            default := by
          rw [sampleAcc_succ, sampleOne_fst,
            List.set_eq_of_length_le
              (by rw [(sampleAcc_lengths G O states k).1]; omega)]
          exact sampleAcc_act_untouched G O states k k le_rfl
        rw [hdef] at ht
        exact ht rfl
    constructor
    · intro m hm hav ht
      by_cases hmk : m = k
      · subst hmk
        obtain ⟨t, hteq, htG, -, htin⟩ := hnew hav ht
        rw [hteq]
        exact ⟨htin, htG⟩
      · have hp := hactpres m hmk
        rw [hp] at ht ⊢
        obtain ⟨hmem, hnr⟩ := ih1 m (by omega) hav ht
        exact ⟨hrespmono hmem, hnr⟩
    · intro m1 m2 hm1 hm2 hne hav1 hav2 ht1 ht2
      by_cases h1k : m1 = k <;> by_cases h2k : m2 = k
      · exact absurd (h1k.trans h2k.symm) hne
      · subst h1k
        have hp2 := hactpres m2 h2k
        rw [hp2] at ht2 ⊢
        obtain ⟨hmem2, -⟩ := ih1 m2 (by omega) hav2 ht2
        obtain ⟨t, hteq, -, htr, -⟩ := hnew hav1 ht1
        rw [hteq]
        intro heq
        rw [← heq] at hmem2
        exact htr hmem2
      · subst h2k
        have hp1 := hactpres m1 h1k
        rw [hp1] at ht1 ⊢
        obtain ⟨hmem1, -⟩ := ih1 m1 (by omega) hav1 ht1
        obtain ⟨t, hteq, -, htr, -⟩ := hnew hav2 ht2
        rw [hteq]
        intro heq
        rw [heq] at hmem1
        exact htr hmem1
      · have hp1 := hactpres m1 h1k
        have hp2 := hactpres m2 h2k
        rw [hp1] at ht1 ⊢
        rw [hp2] at ht2 ⊢
        exact ih2 m1 m2 (by omega) (by omega) hne hav1 hav2 ht1 ht2

theorem stepVehicle_responded_mono (f : FMPData) (dist : Nat → Nat → ℚ)
    (hot : Nat → ℚ) (i : Nat) (acc : EnvState) (a : GridAction)
    (out : EnvState) (h : FMPEnv.stepVehicle f dist hot i acc a = some out) :
    acc.responded ⊆ out.responded := by
  simp only [FMPEnv.stepVehicle] at h
  split_ifs at h
  all_goals injection h with h2
  all_goals subst h2
  all_goals
    first
      | exact Finset.subset_insert _ _
      | exact Finset.Subset.refl _

theorem step_loop_responded_mono (f : FMPData) (dist : Nat → Nat → ℚ)
    (hot : Nat → ℚ) (actions : List GridAction) :
    ∀ (l : List Nat) (acc out : EnvState),
      l.foldlM (fun b i => FMPEnv.stepVehicle f dist hot i b
        (actions.getD i default)) acc = some out →
      acc.responded ⊆ out.responded := by
  intro l
  induction l with
  | nil =>
    intro acc out h
    simp only [List.foldlM_nil] at h
    obtain rfl := Option.some.inj h
    exact Finset.Subset.refl _
  | cons x xs ih =>
    intro acc out h
    rw [List.foldlM_cons] at h
    cases hx : FMPEnv.stepVehicle f dist hot x acc (actions.getD x default) with
    | none => rw [hx] at h; exact absurd h (by simp)
    | some mid =>
      rw [hx] at h
      simp only [Option.bind_eq_bind, Option.some_bind] at h
      exact (stepVehicle_responded_mono f dist hot x acc _ mid hx).trans
        (ih mid out h)

/- Claim C3: no double targeting within a tick. -/

/-- Claim C3: within a single `GridSpace.sample` call, two distinct
available vehicles never come out with the same new pickup target
(assuming `random.choices` picks an element of its argument list). -/
theorem grid_sample_distinct_targets (G : GridData) (O : Oracles)
    (states : List FMPState)
    (hch : ∀ (i : Nat) (l : List Nat), l ≠ [] → O.choice i l ∈ l)
    (i j : Nat) (hij : i ≠ j)
    (hi : isAvailable (states.getD i default))
    (hj : isAvailable (states.getD j default))
    (hti : ((GridSpace.sample G O states).1.getD i default).is_loading.target
      ≠ NO_LOADING)
    (htj : ((GridSpace.sample G O states).1.getD j default).is_loading.target
      ≠ NO_LOADING) :
    ((GridSpace.sample G O states).1.getD i default).is_loading.target ≠
      ((GridSpace.sample G O states).1.getD j default).is_loading.target := by
  have hti2 : ((sampleAcc G O states states.length).1.getD i
      default).is_loading.target ≠ NO_LOADING := hti
  have htj2 : ((sampleAcc G O states states.length).1.getD j
      default).is_loading.target ≠ NO_LOADING := htj
  have hleni : i < states.length := by
    by_contra hni
    rw [sampleAcc_act_untouched G O states states.length i
      (le_of_not_lt hni)] at hti2
    exact hti2 rfl
  have hlenj : j < states.length := by
    by_contra hnj
    rw [sampleAcc_act_untouched G O states states.length j
      (le_of_not_lt hnj)] at htj2
    exact htj2 rfl
  exact (sampleAcc_inv G O states hch states.length).2 i j hleni hlenj hij
    hi hj hti2 htj2

/- Claim C4: monotone responded set and exclusion of responded demands. -/

/-- Claim C4: across any `FMPEnv.step` call the responded set only grows
(demand indices are never removed), and `GridSpace.sample` never gives an
available vehicle a new pickup target that is already responded
(`available_dmd` excludes responded demands). -/
theorem responded_monotone_and_excluded :
    (∀ (f : FMPData) (dist : Nat → Nat → ℚ) (hot : Nat → ℚ)
      (st : EnvState) (actions : List GridAction) (out : EnvState)
      (dn : Bool),
      FMPEnv.step f dist hot st actions = some (out, dn) →
      st.responded ⊆ out.responded) ∧
    (∀ (G : GridData) (O : Oracles) (states : List FMPState) (i : Nat),
      (∀ (j : Nat) (l : List Nat), l ≠ [] → O.choice j l ∈ l) →
      isAvailable (states.getD i default) →
      ((GridSpace.sample G O states).1.getD i default).is_loading.target ≠
        NO_LOADING →
      ((GridSpace.sample G O states).1.getD i default).is_loading.target ∉
        G.responded) := by
  constructor
  · intro f dist hot st actions out dn h
    unfold FMPEnv.step at h
    rcases hf : (List.range f.n_vehicle).foldlM
        (fun acc i => FMPEnv.stepVehicle f dist hot i acc
          (actions.getD i default)) st with _ | o
    · rw [hf] at h; exact absurd h (by simp)
    · rw [hf] at h
      simp only [Option.some.injEq, Prod.mk.injEq] at h
      obtain ⟨rfl, -⟩ := h
      exact step_loop_responded_mono f dist hot actions _ st _ hf
  · intro G O states i hch hav ht
    have ht2 : ((sampleAcc G O states states.length).1.getD i
        default).is_loading.target ≠ NO_LOADING := ht
    have hleni : i < states.length := by
      by_contra hni
      rw [sampleAcc_act_untouched G O states states.length i
        (le_of_not_lt hni)] at ht2
      exact ht2 rfl
    exact ((sampleAcc_inv G O states hch states.length).1 i hleni hav ht2).2

/- Claim C5: what `sample` does and does not mutate. -/

/-- Claim C5 (counterexample): `GridSpace.sample` mutates the vehicle
states list: for a vehicle in the delivering phase it writes the advanced
location back into the vehicle state (`grid.py` line 61). -/
theorem grid_sample_mutates_states_cex :
    (GridSpace.sample exG exO exDeliver).2.1 ≠ exDeliver := by decide

/-- Claim C5 (amended): `GridSpace.sample` never changes any vehicle's
`is_loading`, `is_charging` or `battery` fields, and changes `location`
only for vehicles in the delivering phase (`is_loading.current` set); all
other vehicle-state mutation happens in `FMPEnv.step`. -/
theorem grid_sample_frame (G : GridData) (O : Oracles)
    (states : List FMPState) (m : Nat) :
    ((GridSpace.sample G O states).2.1.getD m default).is_loading =
      (states.getD m default).is_loading ∧
    ((GridSpace.sample G O states).2.1.getD m default).is_charging =
      (states.getD m default).is_charging ∧
    ((GridSpace.sample G O states).2.1.getD m default).battery =
      (states.getD m default).battery ∧
    ((states.getD m default).is_loading.current = NO_LOADING →
      ((GridSpace.sample G O states).2.1.getD m default).location =
        (states.getD m default).location) := by
  have h1 := sampleAcc_states_fields G O states states.length m
  exact ⟨h1.1, h1.2.1, h1.2.2,
    fun hc => sampleAcc_location_of_no_deliver G O states states.length m hc⟩

/-- Claim C5 witness: the frame property evaluated on a concrete
non-delivering vehicle, whose state is returned fully unchanged. -/
theorem grid_sample_frame_witness :
    ((GridSpace.sample exG exO [⟨3, ⟨-1, 0⟩, -1, 5⟩]).2.1.getD 0
        default).is_loading = Loading.mk (-1) 0 ∧
    ((GridSpace.sample exG exO [⟨3, ⟨-1, 0⟩, -1, 5⟩]).2.1.getD 0
        default).battery = 5 ∧
    ((GridSpace.sample exG exO [⟨3, ⟨-1, 0⟩, -1, 5⟩]).2.1.getD 0
        default).location = 3 := by
  have h := grid_sample_frame exG exO [⟨3, ⟨-1, 0⟩, -1, 5⟩] 0
  exact ⟨h.1, h.2.2.1, h.2.2.2 (by decide)⟩

/- Claim C10: the completed-delivery action's location. -/

/-- Claim C10: in the delivering branch of `GridSpace.sample`, when the
one-step move reaches the carried demand's destination the returned
action keeps `GridAction`'s default location (it is the wholly default
action), and only in the non-completing case is the action's location
assigned the computed step. -/
theorem grid_sample_deliver_action_location (G : GridData) (O : Oracles)
    (states : List FMPState) (i : Nat) (hi : i < states.length)
    (hcur : (states.getD i default).is_loading.current ≠ NO_LOADING) :
    (O.oneStep (states.getD i default).location
        ((G.demand.getD (states.getD i default).is_loading.current.toNat
          default).destination) =
        (G.demand.getD (states.getD i default).is_loading.current.toNat
          default).destination →
      (GridSpace.sample G O states).1.getD i default = default ∧
      ((GridSpace.sample G O states).1.getD i default).location =
        (default : GridAction).location) ∧
    (O.oneStep (states.getD i default).location
        ((G.demand.getD (states.getD i default).is_loading.current.toNat
          default).destination) ≠
        (G.demand.getD (states.getD i default).is_loading.current.toNat
          default).destination →
      ((GridSpace.sample G O states).1.getD i default).location =
        O.oneStep (states.getD i default).location
          ((G.demand.getD (states.getD i default).is_loading.current.toNat
            default).destination)) := by
  have hact : (GridSpace.sample G O states).1.getD i default =
      (sampleBranch G O i (sampleAcc G O states i).2.1
        (sampleAcc G O states i).2.2).1 :=
    sampleAcc_act_stable G O states states.length i hi hi
  have hsti := sampleAcc_states_untouched G O states i i le_rfl
  have hcur2 : ((sampleAcc G O states i).2.1.getD i
      default).is_loading.current ≠ NO_LOADING := by
    rw [hsti]; exact hcur
  have hdel := sampleBranch_deliver G O i (sampleAcc G O states i).2.1
    (sampleAcc G O states i).2.2 hcur2
  rw [hsti] at hdel
  constructor
  · intro harr
    rw [hact, hdel.2.1 harr]
    exact ⟨rfl, rfl⟩
  · intro hnarr
    rw [hact, hdel.2.2 hnarr]

/-- Claim C10 witness: a delivering vehicle whose one-step move reaches
destination 2 returns the default action (location 0, in particular not
the destination), while the non-reaching oracle yields the moved-to
location. -/
theorem grid_sample_deliver_action_location_witness :
    ((GridSpace.sample exG exO exDeliver).1.getD 0 default = default ∧
      ((GridSpace.sample exG exO exDeliver).1.getD 0 default).location =
        (default : GridAction).location) ∧
    ((GridSpace.sample exG exOmid exDeliver).1.getD 0 default).location =
      1 := by
  refine ⟨(grid_sample_deliver_action_location exG exO exDeliver 0
      (by decide) (by decide)).1 (by decide), ?_⟩
  have h := (grid_sample_deliver_action_location exG exOmid exDeliver 0
    (by decide) (by decide)).2 (by decide)
  rw [h]
  rfl

/- Concrete evaluation helpers for the policy witnesses. -/

theorem getD_zero_mem (l : List Nat) (h : l ≠ []) : l.getD 0 0 ∈ l := by
  cases l with
  | nil => exact absurd rfl h
  | cons a as => simp [List.getD]

theorem exDiag : diagonalLen exG2.vertices = 6 := by
  have h1 : exG2.vertices.map Vertex.y = [0, 1, 0] := rfl
  have h2 : exG2.vertices.map Vertex.x = [0, 1, 2] := rfl
  have h3 : ([0, 1, 0] : List ℚ).max? = some 1 := rfl
  have h4 : ([0, 1, 0] : List ℚ).min? = some 0 := rfl
  have h5 : ([0, 1, 2] : List ℚ).max? = some 2 := rfl
  have h6 : ([0, 1, 2] : List ℚ).min? = some 0 := rfl
  unfold diagonalLen
  rw [h1, h2, h3, h4, h5, h6]
  norm_num

/-- The concrete decision of vehicle 0 of `exAvail2`: clamp probability is
5/4 < 2, so it picks demand 0 and reaches its departure vertex 0. -/
theorem exBranch0 : sampleBranch exG2 exO 0 exAvail2 ∅ =
    (⟨0, ⟨0, 0⟩, -1⟩, exAvail2, {0}) := by
  have hp : ¬ (exO.rnd 0 < possibility_of_togo_charge
      (exAvail2.getD 0 default).battery
      (exG2.electric_vehicles.getD 0 default).capacity
      (diagonalLen exG2.vertices)) := by
    rw [show (exAvail2.getD 0 default).battery = 5 from rfl,
      show (exG2.electric_vehicles.getD 0 default).capacity = 10 from rfl,
      exDiag]
    norm_num [possibility_of_togo_charge, exO]
  simp only [sampleBranch]
  rw [if_neg (by decide), if_neg (by decide), if_neg (by decide), if_neg hp,
    if_pos (by decide), if_pos (by decide)]
  decide

/-- The concrete decision of vehicle 1 of `exAvail2`: demand 0 is already
claimed in `responding`, so it picks demand 1 and reaches its departure
vertex 2. -/
theorem exBranch1 : sampleBranch exG2 exO 1 exAvail2 {0} =
    (⟨2, ⟨1, 1⟩, -1⟩, exAvail2, {1, 0}) := by
  have hp : ¬ (exO.rnd 1 < possibility_of_togo_charge
      (exAvail2.getD 1 default).battery
      (exG2.electric_vehicles.getD 1 default).capacity
      (diagonalLen exG2.vertices)) := by
    rw [show (exAvail2.getD 1 default).battery = 5 from rfl,
      show (exG2.electric_vehicles.getD 1 default).capacity = 10 from rfl,
      exDiag]
    norm_num [possibility_of_togo_charge, exO]
  simp only [sampleBranch]
  rw [if_neg (by decide), if_neg (by decide), if_neg (by decide), if_neg hp,
    if_pos (by decide), if_pos (by decide)]
  decide

theorem sampleOne_mk (G : GridData) (O : Oracles) (i : Nat)
    (sa : List GridAction) (st : List FMPState) (r : Finset Int) :
    sampleOne G O i (sa, st, r) =
      (sa.set i (sampleBranch G O i st r).1, (sampleBranch G O i st r).2.1,
        (sampleBranch G O i st r).2.2) := rfl

/-- The full concrete sample over `exAvail2`: both vehicles pick distinct
demands (0 and 1). -/
theorem exSample2_eq : GridSpace.sample exG2 exO exAvail2 =
    ([⟨0, ⟨0, 0⟩, -1⟩, ⟨2, ⟨1, 1⟩, -1⟩], exAvail2, ({1, 0} : Finset Int)) := by
  have hA1 : sampleAcc exG2 exO exAvail2 1 =
      ([⟨0, ⟨0, 0⟩, -1⟩, default], exAvail2, ({0} : Finset Int)) := by
    rw [show (1 : Nat) = 0 + 1 from rfl, sampleAcc_succ, sampleAcc_zero]
    rw [show (List.replicate exAvail2.length (default : GridAction), exAvail2,
        initResponding exAvail2) =
      (([default, default] : List GridAction), exAvail2, (∅ : Finset Int))
      from rfl]
    rw [sampleOne_mk, exBranch0]
    rfl
  show sampleAcc exG2 exO exAvail2 2 = _
  rw [show (2 : Nat) = 1 + 1 from rfl, sampleAcc_succ, hA1]
  rw [sampleOne_mk, exBranch1]
  rfl

/-- Claim C3 witness: in the concrete two-vehicle instance both available
vehicles receive new pickup targets (0 and 1) and they differ. -/
theorem grid_sample_distinct_targets_witness :
    ((GridSpace.sample exG2 exO exAvail2).1.getD 0 default).is_loading.target
      ≠
    ((GridSpace.sample exG2 exO exAvail2).1.getD 1 default).is_loading.target
    :=
  grid_sample_distinct_targets exG2 exO exAvail2
    (fun _ l h => getD_zero_mem l h) 0 1 (by decide) (by decide) (by decide)
    (by rw [exSample2_eq]; decide) (by rw [exSample2_eq]; decide)

/-- Claim C4 witness: the concrete delivery step grows the responded set
from ∅ to {0}, and the concrete sampled target of vehicle 0 is not a
responded demand. -/
theorem responded_monotone_and_excluded_witness :
    (EnvState.responded ⟨[⟨1, ⟨0, 0⟩, -1, 5⟩], ∅, [0]⟩ ⊆
      EnvState.responded ⟨[⟨1, ⟨-1, -1⟩, -1, 4⟩], {0}, [1]⟩) ∧
    ((GridSpace.sample exG2 exO exAvail2).1.getD 0
        default).is_loading.target ∉ exG2.responded :=
  ⟨responded_monotone_and_excluded.1 exF (fun _ _ => 1) (fun _ => 2)
      ⟨[⟨1, ⟨0, 0⟩, -1, 5⟩], ∅, [0]⟩ [⟨1, ⟨-1, -1⟩, -1⟩] _ _ exStep_eq,
    responded_monotone_and_excluded.2 exG2 exO exAvail2 0
      (fun _ l h => getD_zero_mem l h) (by decide)
      (by rw [exSample2_eq]; decide)⟩

/-- Claim C7 witness: in the concrete delivery step the vehicle's reward
goes from 0 to 1 = min(-1, 0) + 2 * 1. -/
theorem fmp_step_reward_formula_witness :
    (EnvState.rewards ⟨[⟨1, ⟨-1, -1⟩, -1, 4⟩], {0}, [1]⟩).getD 0 0 = 1 := by
  have h := fmp_step_reward_formula exF (fun _ _ => 1) (fun _ => 2) 0
    ⟨[⟨1, ⟨0, 0⟩, -1, 5⟩], ∅, [0]⟩ ⟨1, ⟨-1, -1⟩, -1⟩
    ⟨[⟨1, ⟨-1, -1⟩, -1, 4⟩], {0}, [1]⟩ (by decide) exStepVehicle_eq
  rw [h]
  norm_num [exF, NO_LOADING, NO_CHARGING]

end SumoGym
